import Mathlib

/-
Verification of the Adaptive Stream Playback and Diagnostic Engine
(src/simple-iptv/src/js/modules/player.js).

The player module is shallowly embedded below.  JavaScript strings are
modelled as Lean String values; the handful of string operations the
source uses (toLowerCase, includes, split, trim, startsWith, a regular
expression that searches for a file extension) are implemented as plain
recursive functions over the character list of the string, mirroring the
observable behaviour of the JavaScript operation on the inputs the player
handles.  The fetch call of the preflight prober is modelled by an
explicit outcome value: either a response (status code plus an optional
readable body) or a raised exception (name and message).  Session state
is explicit record passing; event emission is returned as a list of
emitted events.
-/

/-! # String primitives -/

/-- Lowercase every character, as the JavaScript toLowerCase call does for
the ASCII addresses the player handles. -/
def charsLower (s : String) : List Char :=
  s.data.map Char.toLower

/-- Whether the first list starts with the second (pattern) list. -/
def startsWithChars : List Char → List Char → Bool
  | _, [] => true
  | [], _ :: _ => false
  | c :: cs, p :: ps => c == p && startsWithChars cs ps

/-- Whether the pattern occurs as a contiguous run inside the list
(JavaScript String.prototype.includes). -/
def containsChars (pat : List Char) : List Char → Bool
  | [] => startsWithChars [] pat
  | c :: rest => startsWithChars (c :: rest) pat || containsChars pat rest

/-- JavaScript s.includes(sub). -/
def containsSub (s sub : String) : Bool :=
  containsChars sub.data s.data

/-- Drop leading whitespace characters. -/
def dropLeadingWs : List Char → List Char
  | [] => []
  | c :: rest => if c.isWhitespace then dropLeadingWs rest else c :: rest

/-- JavaScript String.prototype.trim: strip whitespace at both ends. -/
def trimChars (cs : List Char) : List Char :=
  (dropLeadingWs ((dropLeadingWs cs.reverse)).reverse)

/-- JavaScript s.split(newline): cut the character list at every newline
character, keeping empty pieces. -/
def splitLines : List Char → List (List Char)
  | [] => [[]]
  | c :: rest =>
    let r := splitLines rest
    if c == '\n' then [] :: r
    else
      match r with
      | [] => [[c]]
      | l :: ls => (c :: l) :: ls

/-! # Error taxonomy (ErrorTypes in player.js) -/

inductive ErrorType where
  | cors
  | blocked
  | network
  | format
  | media
  | empty_stream
  | codec
  | unknown
deriving DecidableEq, Repr

/-- getErrorHint from player.js: the fixed remediation hint per kind. -/
def getErrorHint (t : ErrorType) : String :=
  match t with
  | ErrorType.blocked =>
      "This provider blocks browser playback. Copy the stream URL and use VLC or another media player."
  | ErrorType.cors =>
      "The stream is blocked by browser security (CORS). Copy the URL and use an external player like VLC."
  | ErrorType.network =>
      "Network error. Check your connection or try a different channel."
  | ErrorType.format =>
      "This stream format is not supported by your browser. Try an external player."
  | ErrorType.media =>
      "Media decoding error. The stream may be corrupted or use an unsupported codec."
  | ErrorType.empty_stream =>
      "This channel is offline or the content has ended. Try a different channel or refresh your playlist."
  | ErrorType.codec =>
      "This stream uses HEVC/H.265 codec which may not be supported. Try Safari on macOS, or copy the URL to VLC."
  | ErrorType.unknown =>
      "Try copying the stream URL and playing it in VLC or another media player."

/-! # Content-kind heuristics -/

/-- The on-demand file extensions of the regular expression in player.js. -/
def vodExtensions : List String :=
  ["mp4", "mkv", "avi", "mov", "wmv", "flv", "webm"]

/-- Whether the character list starts with a dot, one of the on-demand
extensions, and then either the end of the input or one of the boundary
characters (the alternation at the end of the regular expression). -/
def vodMatchAt (boundary : List Char) (cs : List Char) : Bool :=
  vodExtensions.any fun ext =>
    startsWithChars cs (List.cons '.' ext.data) &&
      (match cs.drop (ext.data.length + 1) with
       | [] => true
       | c :: _ => boundary.contains c)

/-- Unanchored regular-expression search: try the match at every suffix. -/
def vodSearch (boundary : List Char) : List Char → Bool
  | [] => false
  | c :: rest => vodMatchAt boundary (c :: rest) || vodSearch boundary rest

/-- preflightCheck and play detect an on-demand asset with the pattern
dot, extension, then question mark or end of string, on the lowercased
address. -/
def isVOD (url : String) : Bool :=
  vodSearch ['?'] (charsLower url)

/-- playNative uses a variant of the pattern whose boundary alternation
also admits a percent character. -/
def isVODnative (url : String) : Bool :=
  vodSearch ['?', '%'] (charsLower url)

/-- play() treats an address as HLS when its lowercased form contains
the manifest extension. -/
def isHLSurl (url : String) : Bool :=
  containsChars (String.data ".m3u8") (charsLower url)

/-! # Manifest analysis (the HLS branch of preflightCheck) -/

/-- Split the body on newlines, trim every line, keep the non-empty ones. -/
def manifestLines (body : String) : List (List Char) :=
  ((splitLines body.data).map trimChars).filter fun l => !l.isEmpty

/-- Whether some line starts with the explicit end-of-list marker. -/
def hasEndList (body : String) : Bool :=
  (manifestLines body).any fun l => startsWithChars l (String.data "#EXT-X-ENDLIST")

/-- The lines that do not start with a hash character and are non-empty:
the extracted sub-resource (segment) URIs. -/
def segmentUrls (body : String) : List (List Char) :=
  (manifestLines body).filter fun l =>
    !startsWithChars l ['#'] && decide (0 < l.length)

/-! # Preflight prober -/

/-- The configured blocking status codes (BLOCKED_STATUS_CODES). -/
def BLOCKED_STATUS_CODES : List Nat := [401, 403, 451, 458, 459, 460]

/-- The record returned by preflightCheck.  The source omits the error
and message fields on the success path; they are modelled as none and
the empty string there. -/
structure PreflightResult where
  ok : Bool
  status : Nat
  error : Option String
  message : String
deriving DecidableEq, Repr

/-- Outcome of the bounded fetch issued by preflightCheck: a response
with a status code and an optionally readable body (none models the
body-read failing, which the source catches and ignores), or a raised
exception carrying its name and message. -/
inductive FetchOutcome where
  | response (status : Nat) (body : Option String)
  | failure (name : String) (message : String)
deriving DecidableEq, Repr

/-- Response.ok of the fetch API: status in the 200 to 299 range. -/
def responseOk (status : Nat) : Bool :=
  decide (200 ≤ status ∧ status ≤ 299)

/-- preflightCheck from player.js, as a function of the address and the
fetch outcome.  The VOD branch never inspects the body.  The HLS branch
first looks for an empty manifest, then applies the status-code rules. -/
def preflightCheck (url : String) (outcome : FetchOutcome) : PreflightResult :=
  match outcome with
  | FetchOutcome.failure name msg =>
    if name == "AbortError" then
      { ok := false, status := 0, error := some "timeout",
        message := "Request timed out" }
    else if name == "TypeError" && containsSub msg "Failed to fetch" then
      { ok := false, status := 0, error := some "cors_or_network",
        message := "Stream blocked (CORS) or network error" }
    else
      { ok := false, status := 0, error := some "unknown", message := msg }
  | FetchOutcome.response status body =>
    if isVOD url then
      if status == 200 || status == 206 then
        { ok := true, status := status, error := none, message := "" }
      else if BLOCKED_STATUS_CODES.contains status then
        { ok := false, status := status, error := some "blocked",
          message := "VOD blocked by provider (HTTP " ++ toString status ++
            "). Try copying the URL to VLC." }
      else
        { ok := false, status := status, error := some "network",
          message := "VOD request failed (HTTP " ++ toString status ++ ")" }
    else
      let emptyManifest :=
        match body with
        | some b =>
          containsSub b "#EXTM3U" && hasEndList b &&
            decide ((segmentUrls b).length = 0)
        | none => false
      if emptyManifest then
        { ok := false, status := status, error := some "empty_stream",
          message := "Stream is offline or has ended. The channel returned an empty playlist." }
      else if BLOCKED_STATUS_CODES.contains status then
        { ok := false, status := status, error := some "blocked",
          message := "Stream blocked by provider (HTTP " ++ toString status ++ ")" }
      else if !responseOk status && status != 206 then
        { ok := false, status := status, error := some "http_error",
          message := "HTTP error " ++ toString status }
      else
        { ok := true, status := status, error := none, message := "" }

/-! # Session controller: the pre-backend phase of play() -/

/-- The capability snapshot play() logs and the backend choice consults:
supportsNativeHLS(), supportsMSE(), supportsHEVC(). -/
structure Capabilities where
  nativeHLS : Bool
  mse : Bool
  hevc : Bool
deriving DecidableEq, Repr

/-- The backend play() hands the attempt to. -/
inductive Backend where
  | nativeHls
  | hlsJs
  | nativeDirect
deriving DecidableEq, Repr

/-- Outcome of the pre-backend phase of play(): rejection on a failed
preflight verdict, a chosen backend to start loading, or the final
unsupported rejection. -/
inductive PlayResult where
  | preflightRejected (t : ErrorType) (status : Nat)
  | backendLoading (b : Backend)
  | unsupported
deriving DecidableEq, Repr

/-- Whether a play outcome is a rejection on the preflight verdict. -/
def isPreflightRejection : PlayResult → Bool
  | PlayResult.preflightRejected _ _ => true
  | _ => false

/-- The switch in play() that maps a failed preflight verdict to the
error taxonomy (default branch: network). -/
def classifyPreflightError (e : Option String) : ErrorType :=
  match e with
  | some "blocked" => ErrorType.blocked
  | some "cors_or_network" => ErrorType.cors
  | some "empty_stream" => ErrorType.empty_stream
  | _ => ErrorType.network

/-- The backend dispatch at the end of play(): native HLS when the
address is HLS and the surface supports it natively, hls.js when the
address is HLS and MSE is available, direct native playback for a
non-HLS address, and otherwise an unsupported rejection. -/
def selectBackend (url : String) (caps : Capabilities) : PlayResult :=
  if isHLSurl url && caps.nativeHLS then PlayResult.backendLoading Backend.nativeHls
  else if isHLSurl url && caps.mse then PlayResult.backendLoading Backend.hlsJs
  else if !isHLSurl url then PlayResult.backendLoading Backend.nativeDirect
  else PlayResult.unsupported

/-- Trace of one play() attempt up to backend hand-off: whether the
preflight probe was invoked, and the resulting outcome. -/
structure PlayTrace where
  preflightInvoked : Bool
  result : PlayResult
deriving DecidableEq, Repr

/-- The pre-backend control flow of play(): with a proxied address the
preflight is skipped entirely and the attempt goes straight to backend
selection; otherwise the probe runs and a non-ok verdict rejects the
attempt with the classified kind before any backend is attached. -/
def play (url : String) (usingProxy : Bool) (caps : Capabilities)
    (outcome : FetchOutcome) : PlayTrace :=
  if usingProxy then
    { preflightInvoked := false, result := selectBackend url caps }
  else
    let pf := preflightCheck url outcome
    if pf.ok then
      { preflightInvoked := true, result := selectBackend url caps }
    else
      { preflightInvoked := true,
        result := PlayResult.preflightRejected (classifyPreflightError pf.error) pf.status }

/-- The readiness timer of playNative: 30000 ms for an on-demand file,
15000 ms otherwise. -/
def playNativeTimeoutMs (url : String) : Nat :=
  if isVODnative url then 30000 else 15000

/-! # Error classifier: library-backend (hls.js) errors -/

/-- The hls.js error categories the handler branches on (data.type). -/
inductive HlsErrorCategory where
  | networkError
  | mediaError
  | otherError
deriving DecidableEq, Repr

/-- The fields of the hls.js error event handleHlsError inspects:
category (data.type), details, the fatal flag, and the optional
response code (data.response and its code field). -/
structure HlsErrorData where
  category : HlsErrorCategory
  details : String
  fatal : Bool
  responseCode : Option Nat
deriving DecidableEq, Repr

/-- The report every classification produces. -/
structure ErrorReport where
  type : ErrorType
  message : String
  hint : String
deriving DecidableEq, Repr

/-- Result of handleHlsError: the report it returns, whether it emitted
the report on the error channel, and whether it asked the backend to
recover from a media error (recoverMediaError). -/
structure HlsHandleResult where
  report : ErrorReport
  emitted : Bool
  recovered : Bool
deriving DecidableEq, Repr

/-- The JavaScript guard on the first branch: responseCode is truthy
(present and non-zero) and a member of the blocking set. -/
def rcBlocked (rc : Option Nat) : Bool :=
  match rc with
  | some c => c != 0 && BLOCKED_STATUS_CODES.contains c
  | none => false

/-- handleHlsError from player.js.  The hlsAttached flag models the
hlsInstance null check guarding the recovery call; in the source a
fatal media error with an attached instance triggers recoverMediaError
and returns before the emit call, so the report is not emitted. -/
def handleHlsError (hlsAttached : Bool) (d : HlsErrorData) : HlsHandleResult :=
  if rcBlocked d.responseCode then
    { report :=
        { type := ErrorType.blocked,
          message := "Stream blocked by provider (HTTP " ++
            toString (d.responseCode.getD 0) ++ ")",
          hint := getErrorHint ErrorType.blocked },
      emitted := true, recovered := false }
  else if d.category == HlsErrorCategory.networkError then
    let rcZeroOrAbsent :=
      match d.responseCode with
      | some c => c == 0
      | none => true
    let c := d.responseCode.getD 0
    if rcZeroOrAbsent then
      if d.details == "manifestLoadError" then
        { report :=
            { type := ErrorType.blocked,
              message := "Stream blocked (CORS/Connection refused)",
              hint := getErrorHint ErrorType.cors },
          emitted := true, recovered := false }
      else if d.details == "fragLoadError" then
        { report :=
            { type := ErrorType.blocked,
              message := "Stream segments blocked",
              hint := getErrorHint ErrorType.blocked },
          emitted := true, recovered := false }
      else
        { report :=
            { type := ErrorType.network,
              message := "Network error occurred",
              hint := getErrorHint ErrorType.network },
          emitted := true, recovered := false }
    else if decide (400 ≤ c) && decide (c < 500) then
      { report :=
          { type := ErrorType.blocked,
            message := "Access denied (HTTP " ++ toString c ++ ")",
            hint := getErrorHint ErrorType.blocked },
        emitted := true, recovered := false }
    else if decide (500 ≤ c) then
      { report :=
          { type := ErrorType.network,
            message := "Server error (HTTP " ++ toString c ++ ")",
            hint := "The streaming server may be down. Try again later." },
        emitted := true, recovered := false }
    else
      { report :=
          { type := ErrorType.network,
            message := "Network error",
            hint := getErrorHint ErrorType.network },
        emitted := true, recovered := false }
  else if d.category == HlsErrorCategory.mediaError then
    let base : ErrorReport :=
      { type := ErrorType.media,
        message := "Media playback error",
        hint := getErrorHint ErrorType.media }
    if d.fatal && hlsAttached then
      { report := base, emitted := false, recovered := true }
    else
      { report := base, emitted := true, recovered := false }
  else if d.details == "manifestLoadError" || d.details == "manifestParsingError" then
    { report :=
        { type := ErrorType.format,
          message := "Invalid stream format",
          hint := getErrorHint ErrorType.format },
      emitted := true, recovered := false }
  else
    { report :=
        { type := ErrorType.unknown,
          message := "Playback error",
          hint := "" },
      emitted := true, recovered := false }

/-! # Error classifier: native decode-surface errors -/

/-- The branch of handleVideoError taken when no retained non-ok
preflight verdict applies: the MediaError code switch.  Code 1
(aborted) keeps the initial unknown kind; 2 maps to network; 3 to
media; 4 to codec when HEVC is unsupported and otherwise to blocked;
anything else keeps the initial unknown report. -/
def nativeVideoClassify (code : Option Nat) (hevc : Bool) : ErrorReport :=
  match code with
  | some 1 =>
    { type := ErrorType.unknown, message := "Playback aborted",
      hint := "Playback was stopped." }
  | some 2 =>
    { type := ErrorType.network, message := "Network error",
      hint := "A network error occurred. This could also be CORS blocking." }
  | some 3 =>
    { type := ErrorType.media, message := "Decoding error",
      hint := "The video could not be decoded." }
  | some 4 =>
    if hevc then
      { type := ErrorType.blocked, message := "Stream not accessible",
        hint := "The stream may be blocked by the provider or your browser. Try copying the URL to VLC." }
    else
      { type := ErrorType.codec, message := "Codec not supported",
        hint := "This stream may use HEVC/H.265 codec. Try Safari on macOS 11+, or copy the URL to VLC." }
  | _ =>
    { type := ErrorType.unknown, message := "Playback error", hint := "" }

/-- The inputs handleVideoError inspects: the retained last preflight
verdict, the MediaError code of the playback surface (none when the
surface reports no error object), and HEVC support. -/
structure VideoErrorContext where
  lastPreflightResult : Option PreflightResult
  mediaErrorCode : Option Nat
  hevcSupported : Bool
deriving DecidableEq, Repr

/-- handleVideoError from player.js: when a retained non-ok preflight
verdict exists it is preferred, mapping blocked to blocked,
cors_or_network to cors, and every other diagnosed kind to network;
otherwise the MediaError code switch decides. -/
def handleVideoError (ctx : VideoErrorContext) : ErrorReport :=
  match ctx.lastPreflightResult with
  | some pf =>
    if !pf.ok then
      let t :=
        if pf.error == some "blocked" then ErrorType.blocked
        else if pf.error == some "cors_or_network" then ErrorType.cors
        else ErrorType.network
      { type := t, message := pf.message, hint := getErrorHint t }
    else
      nativeVideoClassify ctx.mediaErrorCode ctx.hevcSupported
  | none => nativeVideoClassify ctx.mediaErrorCode ctx.hevcSupported

/-! # Session state, stop(), volume -/

/-- The playback surface fields the embedded operations touch. -/
structure VideoEl where
  src : Option String
  paused : Bool
  volume : ℚ
  muted : Bool
deriving DecidableEq, Repr

/-- The module-level mutable session fields of player.js. -/
structure PlayerSession where
  hlsAttached : Bool
  video : Option VideoEl
  currentChannel : Option String
  isPlaying : Bool
  lastPreflight : Option PreflightResult
deriving DecidableEq, Repr

/-- Payload of the state-change emission at the end of stop(). -/
structure StateChangePayload where
  playing : Bool
  channel : Option String
deriving DecidableEq, Repr

/-- Events explicitly emitted by the embedded operations. -/
inductive PlayerEvent where
  | stateChange (p : StateChangePayload)
deriving DecidableEq, Repr

/-- stop() from player.js: destroy the hls.js instance if attached,
pause the surface and detach its source, clear the session fields, and
emit one state-change with playing false and a null channel.  The
function is total: every branch is guarded exactly as in the source, so
it never raises, with or without an active session. -/
def stop (s : PlayerSession) : PlayerSession × List PlayerEvent :=
  let video' := s.video.map fun v => { v with paused := true, src := none }
  ({ hlsAttached := false,
     video := video',
     currentChannel := none,
     isPlaying := false,
     lastPreflight := none },
   [PlayerEvent.stateChange { playing := false, channel := none }])

/-- setVolume from player.js: clamp to the unit interval and assign;
no-op when the player is uninitialized. -/
def setVolume (v : Option VideoEl) (vol : ℚ) : Option VideoEl :=
  match v with
  | none => none
  | some el => some { el with volume := max 0 (min 1 vol) }

/-- getVolume from player.js: the JavaScript expression
videoElement?.volume || 1, which yields 1 both when the player is
uninitialized and when the stored volume is exactly zero (zero is
falsy). -/
def getVolume (v : Option VideoEl) : ℚ :=
  match v with
  | none => 1
  | some el => if el.volume = 0 then 1 else el.volume

/-! # Supporting lemmas -/

/-- On an on-demand address the prober ignores the body entirely and
decides from the status code alone. -/
theorem preflight_vod_result (url : String) (status : Nat) (body : Option String)
    (hvod : isVOD url = true) :
    preflightCheck url (FetchOutcome.response status body) =
      (if status == 200 || status == 206 then
        { ok := true, status := status, error := none, message := "" }
      else if BLOCKED_STATUS_CODES.contains status then
        { ok := false, status := status, error := some "blocked",
          message := "VOD blocked by provider (HTTP " ++ toString status ++
            "). Try copying the URL to VLC." }
      else
        { ok := false, status := status, error := some "network",
          message := "VOD request failed (HTTP " ++ toString status ++ ")" }) := by
  simp [preflightCheck, hvod]

/-! # Claim C4 -/

/-- Claim C4: for every play() call on a proxied target, the preflight
probe is never invoked and the attempt moves from the capability
snapshot directly to backend selection and loading; in particular the
outcome is never a rejection on a preflight verdict. -/
theorem C4_proxied_skips_preflight (url : String) (caps : Capabilities)
    (outcome : FetchOutcome) :
    (play url true caps outcome).preflightInvoked = false ∧
    (play url true caps outcome).result = selectBackend url caps ∧
    isPreflightRejection (selectBackend url caps) = false := by
  refine ⟨rfl, rfl, ?_⟩
  cases hb : isHLSurl url <;> cases hn : caps.nativeHLS <;> cases hm : caps.mse <;>
    simp [selectBackend, isPreflightRejection, hb, hn, hm]

/-! # Claim C5 -/

/-- Claim C5: for every status code in the configured blocking set, the
probe of an on-demand-classified address returns a blocked verdict
carrying that status code, and the verdict does not depend on the
response body (the body is never read on this path). -/
theorem C5_blocked_codes_vod (url : String) (status : Nat) (body : Option String)
    (hvod : isVOD url = true) (hblk : status ∈ BLOCKED_STATUS_CODES) :
    (preflightCheck url (FetchOutcome.response status body)).ok = false ∧
    (preflightCheck url (FetchOutcome.response status body)).error = some "blocked" ∧
    (preflightCheck url (FetchOutcome.response status body)).status = status ∧
    ∀ b2 : Option String,
      preflightCheck url (FetchOutcome.response status b2) =
        preflightCheck url (FetchOutcome.response status body) := by
  fin_cases hblk <;>
    refine ⟨?_, ?_, ?_, fun b2 => ?_⟩ <;>
    rw [preflight_vod_result _ _ _ hvod] <;>
    first
      | rfl
      | rw [preflight_vod_result _ _ _ hvod]

/-- Witness for claim C5 at a concrete on-demand address and status 403. -/
theorem C5_witness :
    (preflightCheck "http://host/movie.mp4" (FetchOutcome.response 403 none)).ok = false ∧
    (preflightCheck "http://host/movie.mp4" (FetchOutcome.response 403 none)).error = some "blocked" ∧
    (preflightCheck "http://host/movie.mp4" (FetchOutcome.response 403 none)).status = 403 ∧
    ∀ b2 : Option String,
      preflightCheck "http://host/movie.mp4" (FetchOutcome.response 403 b2) =
        preflightCheck "http://host/movie.mp4" (FetchOutcome.response 403 none) :=
  C5_blocked_codes_vod "http://host/movie.mp4" 403 none (by decide) (by decide)

/-! # Claim C6 -/

/-- Claim C6: probing a manifest-style (non on-demand) address whose body
contains the manifest marker, an explicit end-of-list marker, and zero
extracted sub-resource URIs yields an empty-stream verdict. -/
theorem C6_empty_manifest (url : String) (status : Nat) (body : String)
    (hvod : isVOD url = false)
    (hm : containsSub body "#EXTM3U" = true)
    (he : hasEndList body = true)
    (hs : (segmentUrls body).length = 0) :
    (preflightCheck url (FetchOutcome.response status (some body))).ok = false ∧
    (preflightCheck url (FetchOutcome.response status (some body))).error
      = some "empty_stream" := by
  simp [preflightCheck, hvod, hm, he, hs]

/-- Witness for claim C6 at a concrete manifest address and body. -/
theorem C6_witness :
    (preflightCheck "http://host/chan.m3u8"
        (FetchOutcome.response 200 (some "#EXTM3U\n#EXTINF:4.0,\n#EXT-X-ENDLIST"))).ok = false ∧
    (preflightCheck "http://host/chan.m3u8"
        (FetchOutcome.response 200 (some "#EXTM3U\n#EXTINF:4.0,\n#EXT-X-ENDLIST"))).error
      = some "empty_stream" :=
  C6_empty_manifest "http://host/chan.m3u8" 200 "#EXTM3U\n#EXTINF:4.0,\n#EXT-X-ENDLIST"
    (by decide) (by decide) (by decide) (by decide)

/-! # Claim C7 -/

/-- Claim C7 counterexample: a transport failure whose exception is a
TypeError without the exact Failed-to-fetch message (the wording another
host engine uses) is classified unknown, which is neither timeout nor
cors_or_network, so not every transport failure lands in those two
kinds. -/
theorem C7_counterexample :
    (preflightCheck "http://host/chan.m3u8"
        (FetchOutcome.failure "TypeError"
          "NetworkError when attempting to fetch resource.")).error = some "unknown" ∧
    (some "unknown" : Option String) ≠ some "timeout" ∧
    (some "unknown" : Option String) ≠ some "cors_or_network" := by
  decide

/-- Claim C7 (amended): a transport failure is classified timeout when
the exception is the abort of the bounded wait, cors_or_network when it
is a TypeError whose message contains the Failed-to-fetch wording, and
unknown in every remaining case; the verdict is never ok and carries
status zero. -/
theorem C7_amended (url name msg : String) :
    preflightCheck url (FetchOutcome.failure name msg) =
      { ok := false, status := 0,
        error := some
          (if name == "AbortError" then "timeout"
           else if name == "TypeError" && containsSub msg "Failed to fetch" then
             "cors_or_network"
           else "unknown"),
        message :=
          if name == "AbortError" then "Request timed out"
          else if name == "TypeError" && containsSub msg "Failed to fetch" then
            "Stream blocked (CORS) or network error"
          else msg } := by
  simp only [preflightCheck]
  split <;> rename_i h1
  · simp [h1]
  · split <;> rename_i h2 <;> simp [h1, h2]

/-! # Claim C8 -/

/-- Claim C8 counterexample: an on-demand probe with a status that is
neither 200 nor 206 nor in the blocking set returns kind network, not
http_error (the http_error kind only occurs on the manifest path). -/
theorem C8_counterexample :
    isVOD "http://host/movie.mp4" = true ∧
    (preflightCheck "http://host/movie.mp4" (FetchOutcome.response 500 none)).error
      = some "network" ∧
    (preflightCheck "http://host/movie.mp4" (FetchOutcome.response 500 none)).error
      ≠ some "http_error" := by
  decide

/-- Claim C8 (amended): for every on-demand probe whose status is
neither 200 nor 206 nor a member of the blocking set, the verdict is a
failure of kind network carrying that status. -/
theorem C8_amended (url : String) (status : Nat) (body : Option String)
    (hvod : isVOD url = true)
    (h200 : status ≠ 200) (h206 : status ≠ 206)
    (hblk : status ∉ BLOCKED_STATUS_CODES) :
    (preflightCheck url (FetchOutcome.response status body)).ok = false ∧
    (preflightCheck url (FetchOutcome.response status body)).error = some "network" ∧
    (preflightCheck url (FetchOutcome.response status body)).status = status := by
  rw [preflight_vod_result _ _ _ hvod]
  simp [h200, h206, hblk]

/-- Witness for amended claim C8 at a concrete on-demand address and
status 500. -/
theorem C8_witness :
    (preflightCheck "http://host/movie.mp4" (FetchOutcome.response 500 none)).ok = false ∧
    (preflightCheck "http://host/movie.mp4" (FetchOutcome.response 500 none)).error
      = some "network" ∧
    (preflightCheck "http://host/movie.mp4" (FetchOutcome.response 500 none)).status = 500 :=
  C8_amended "http://host/movie.mp4" 500 none (by decide) (by decide) (by decide) (by decide)

/-! # Claim C1 -/

/-- A non-fatal media-category error signal with no response code. -/
def mediaNonFatalSignal : HlsErrorData :=
  { category := HlsErrorCategory.mediaError, details := "bufferAppendError",
    fatal := false, responseCode := none }

/-- A fatal media-category error signal with no response code. -/
def mediaFatalSignal : HlsErrorData :=
  { category := HlsErrorCategory.mediaError, details := "bufferAppendError",
    fatal := true, responseCode := none }

/-- Claim C1 counterexample: on a non-fatal media-category signal the
handler performs no self-heal and emits the ErrorReport immediately,
while the claim requires one self-heal attempt and a suppressed report
in exactly this case. -/
theorem C1_counterexample :
    (handleHlsError true mediaNonFatalSignal).recovered = false ∧
    (handleHlsError true mediaNonFatalSignal).emitted = true ∧
    (handleHlsError true mediaNonFatalSignal).report.type = ErrorType.media := by
  decide

/-- Claim C1 (amended): a media-category signal whose response code is
not a truthy member of the blocking set is classified media; the single
self-heal (recoverMediaError) is attempted exactly when the fatal flag
is set and a library instance is attached, and exactly then the
ErrorReport is not emitted on the error channel; a non-fatal signal is
emitted immediately with no self-heal. -/
theorem C1_amended (attached : Bool) (d : HlsErrorData)
    (hcat : d.category = HlsErrorCategory.mediaError)
    (hrc : rcBlocked d.responseCode = false) :
    (handleHlsError attached d).report.type = ErrorType.media ∧
    (handleHlsError attached d).recovered = (d.fatal && attached) ∧
    (handleHlsError attached d).emitted = !(d.fatal && attached) := by
  obtain ⟨cat, det, fat, rc⟩ := d
  simp only at hcat hrc
  subst hcat
  simp only [handleHlsError, hrc]
  cases fat <;> cases attached <;> simp

/-- Witness for amended claim C1 at a fatal media signal with an
attached instance. -/
theorem C1_witness :
    (handleHlsError true mediaFatalSignal).report.type = ErrorType.media ∧
    (handleHlsError true mediaFatalSignal).recovered = (mediaFatalSignal.fatal && true) ∧
    (handleHlsError true mediaFatalSignal).emitted = !(mediaFatalSignal.fatal && true) :=
  C1_amended true mediaFatalSignal rfl rfl

/-! # Claim C2 -/

/-- Claim C2: the code gives the on-demand (file-extension) asset a
30000 ms readiness timer and live content a 15000 ms timer, so the
on-demand timer is strictly longer, contradicting the claim and the
comment in the source next to the timer (stricter for VOD files since
they should load faster). -/
theorem C2_code_evaluation :
    isVODnative "http://host/movie.mp4" = true ∧
    isVODnative "http://host/chan.m3u8" = false ∧
    playNativeTimeoutMs "http://host/movie.mp4" = 30000 ∧
    playNativeTimeoutMs "http://host/chan.m3u8" = 15000 ∧
    ¬ playNativeTimeoutMs "http://host/movie.mp4"
        < playNativeTimeoutMs "http://host/chan.m3u8" := by
  decide

/-! # Claim C3 -/

/-- A retained empty-stream preflight verdict, as the prober produces it. -/
def pfEmptyStream : PreflightResult :=
  preflightCheck "http://host/chan.m3u8"
    (FetchOutcome.response 200 (some "#EXTM3U\n#EXT-X-ENDLIST"))

/-- Claim C3 counterexample: with a retained non-ok empty-stream
verdict, the native error handler reports network, while the
classifyPreflight mapping named by the claim sends empty-stream to
empty-stream; so the emitted kind does not equal that mapping. -/
theorem C3_counterexample :
    pfEmptyStream.ok = false ∧
    pfEmptyStream.error = some "empty_stream" ∧
    classifyPreflightError pfEmptyStream.error = ErrorType.empty_stream ∧
    (handleVideoError
        { lastPreflightResult := some pfEmptyStream, mediaErrorCode := some 3,
          hevcSupported := true }).type = ErrorType.network ∧
    ErrorType.network ≠ ErrorType.empty_stream := by
  decide

/-- Claim C3 (amended): with a retained non-ok preflight verdict the
native handler prefers it regardless of the decode error code, mapping
blocked to blocked and cors-or-network to cors, but every other
diagnosed kind, including timeout, empty-stream and http-error, to
network. -/
theorem C3_amended (code : Option Nat) (hevc : Bool) (st : Nat) (msg : String) :
    (handleVideoError
        { lastPreflightResult := some { ok := false, status := st, error := some "blocked", message := msg },
          mediaErrorCode := code, hevcSupported := hevc }).type = ErrorType.blocked ∧
    (handleVideoError
        { lastPreflightResult := some { ok := false, status := st, error := some "cors_or_network", message := msg },
          mediaErrorCode := code, hevcSupported := hevc }).type = ErrorType.cors ∧
    (handleVideoError
        { lastPreflightResult := some { ok := false, status := st, error := some "timeout", message := msg },
          mediaErrorCode := code, hevcSupported := hevc }).type = ErrorType.network ∧
    (handleVideoError
        { lastPreflightResult := some { ok := false, status := st, error := some "empty_stream", message := msg },
          mediaErrorCode := code, hevcSupported := hevc }).type = ErrorType.network ∧
    (handleVideoError
        { lastPreflightResult := some { ok := false, status := st, error := some "http_error", message := msg },
          mediaErrorCode := code, hevcSupported := hevc }).type = ErrorType.network := by
  refine ⟨rfl, rfl, rfl, rfl, rfl⟩

/-! # Claim C9 -/

/-- A fully active session: library backend attached, surface playing. -/
def activeSession : PlayerSession :=
  { hlsAttached := true,
    video := some { src := some "http://host/chan.m3u8", paused := false,
                    volume := 1, muted := false },
    currentChannel := some "chan",
    isPlaying := true,
    lastPreflight := some pfEmptyStream }

/-- Claim C9 counterexample: the second consecutive stop() still emits a
state-change event with playing false and a null channel, so it is not
free of observable effects. -/
theorem C9_counterexample :
    (stop (stop activeSession).1).2
      = [PlayerEvent.stateChange { playing := false, channel := none }] ∧
    (stop (stop activeSession).1).2 ≠ ([] : List PlayerEvent) := by
  decide

/-- Claim C9 (amended): stop() is total (the embedding is a total
function, so it never raises, with or without an active session) and
idempotent on the session state: a second consecutive call leaves the
state exactly as the first left it; however each call, the second
included, emits one state-change event with playing false and a null
channel, so the second call is not silent on the event channels. -/
theorem C9_amended (s : PlayerSession) :
    stop (stop s).1
      = ((stop s).1,
         [PlayerEvent.stateChange { playing := false, channel := none }]) := by
  rcases s with ⟨h, v, c, p, l⟩
  rcases v with _ | el <;> simp [stop]

/-! # Claim C10 -/

/-- Claim C10: getVolume returns the stored surface volume only when it
is non-zero; an uninitialized player yields 1, and a stored volume of
exactly zero (the result of setVolume 0) also yields 1. -/
theorem C10_getVolume (el : VideoEl) (h : el.volume ≠ 0) :
    getVolume none = 1 ∧
    getVolume (some el) = el.volume ∧
    getVolume (setVolume (some el) 0) = 1 := by
  refine ⟨rfl, ?_, ?_⟩
  · simp [getVolume, h]
  · simp [getVolume, setVolume]

/-- A surface element whose volume is one half. -/
def elHalf : VideoEl :=
  { src := none, paused := true, volume := 1 / 2, muted := false }

/-- Witness for claim C10 at a surface volume of one half. -/
theorem C10_witness :
    getVolume none = 1 ∧
    getVolume (some elHalf) = elHalf.volume ∧
    getVolume (setVolume (some elHalf) 0) = 1 :=
  C10_getVolume elHalf (by norm_num [elHalf])
